import Mathlib

/-!
Formal model of the PlatynUI native runtime core (geometry primitives,
unified UiNode tree, query evaluator, device override resolution, and the
deterministic mock provider/devices). The runtime itself is implemented in
the native Rust extension `platynui_native._native`, which is not part of
the Python sources; the definitions below are therefore modelled from the
specification, with finite 64-bit float coordinates embedded as exact
rationals.
-/

namespace PlatynUI

/-- Modelled from the spec: the 2-D point value type `core.Point` of the
native extension (absent from the Python sources); finite float
coordinates are embedded as exact rationals. -/
structure Point where
  x : ℚ
  y : ℚ
deriving DecidableEq

/-- Modelled from the spec: the 2-D size value type `core.Size` of the
native extension (absent from the Python sources). -/
structure Size where
  width : ℚ
  height : ℚ
deriving DecidableEq

/-- Modelled from the spec: the rectangle value type `core.Rect` of the
native extension (absent from the Python sources); stored as position
plus extent, with no sign restriction on width/height. -/
structure Rect where
  x : ℚ
  y : ℚ
  width : ℚ
  height : ℚ
deriving DecidableEq

/-- Modelled from the spec: component-wise point addition (`Point.__add__`). -/
def Point.add (p q : Point) : Point :=
  ⟨p.x + q.x, p.y + q.y⟩

/-- Modelled from the spec: `Point.to_tuple`, the ordered pair of fields. -/
def Point.to_tuple (p : Point) : ℚ × ℚ :=
  (p.x, p.y)

/-- Modelled from the spec: the sequence produced by iterating/unpacking a
point, in field order. -/
def Point.toFields (p : Point) : List ℚ :=
  [p.x, p.y]

/-- Modelled from the spec: `Size.to_tuple`, the ordered pair of fields. -/
def Size.to_tuple (s : Size) : ℚ × ℚ :=
  (s.width, s.height)

/-- Modelled from the spec: the sequence produced by iterating/unpacking a
size, in field order. -/
def Size.toFields (s : Size) : List ℚ :=
  [s.width, s.height]

/-- Modelled from the spec: `Rect.position`, the top-left corner. -/
def Rect.position (r : Rect) : Point :=
  ⟨r.x, r.y⟩

/-- Modelled from the spec: `Rect.size`, the extent of the rectangle. -/
def Rect.size (r : Rect) : Size :=
  ⟨r.width, r.height⟩

/-- Modelled from the spec: `Rect.center`, the midpoint of the rectangle. -/
def Rect.center (r : Rect) : Point :=
  ⟨r.x + r.width / 2, r.y + r.height / 2⟩

/-- Modelled from the spec: `Rect.inflate(dw, dh)` expands the rectangle
symmetrically in all four directions. -/
def Rect.inflate (r : Rect) (dw dh : ℚ) : Rect :=
  ⟨r.x - dw, r.y - dh, r.width + 2 * dw, r.height + 2 * dh⟩

/-- Modelled from the spec: `Rect.deflate(dw, dh)` shrinks the rectangle
symmetrically in all four directions. -/
def Rect.deflate (r : Rect) (dw dh : ℚ) : Rect :=
  ⟨r.x + dw, r.y + dh, r.width - 2 * dw, r.height - 2 * dh⟩

/-- Modelled from the spec: `Rect.to_tuple`, the ordered quadruple of fields. -/
def Rect.to_tuple (r : Rect) : ℚ × ℚ × ℚ × ℚ :=
  (r.x, r.y, r.width, r.height)

/-- Modelled from the spec: the sequence produced by iterating/unpacking a
rectangle, in field order. -/
def Rect.toFields (r : Rect) : List ℚ :=
  [r.x, r.y, r.width, r.height]

/-- Modelled from the spec: the closed set of `PointLike` input shapes:
the exact type, an ordered pair, or a mapping with full field names. -/
inductive PointLike where
  | canonical (p : Point)
  | pair (x y : ℚ)
  | mapping (x y : ℚ)
deriving DecidableEq

/-- Modelled from the spec: `Point.from_like`, the single conversion from
any `PointLike` shape to a `Point`. -/
def Point.from_like : PointLike → Point
  | .canonical p => p
  | .pair x y => ⟨x, y⟩
  | .mapping x y => ⟨x, y⟩

/-- Modelled from the spec: equality comparison of a `Point` with any
`PointLike` shape (`Point.__eq__`), comparing field by field. -/
def Point.eqLike (p : Point) : PointLike → Bool
  | .canonical q => p.x == q.x && p.y == q.y
  | .pair x y => p.x == x && p.y == y
  | .mapping x y => p.x == x && p.y == y

/-- Modelled from the spec: the closed set of `SizeLike` input shapes:
the exact type, an ordered pair, a mapping with full field names
(`width`/`height`), or a mapping with the abbreviated keys `w`/`h`. -/
inductive SizeLike where
  | canonical (s : Size)
  | pair (w h : ℚ)
  | mappingFull (w h : ℚ)
  | mappingShort (w h : ℚ)
deriving DecidableEq

/-- Modelled from the spec: `Size.from_like`, the single conversion from
any `SizeLike` shape to a `Size`. -/
def Size.from_like : SizeLike → Size
  | .canonical s => s
  | .pair w h => ⟨w, h⟩
  | .mappingFull w h => ⟨w, h⟩
  | .mappingShort w h => ⟨w, h⟩

/-- Modelled from the spec: equality comparison of a `Size` with any
`SizeLike` shape (`Size.__eq__`), comparing field by field. -/
def Size.eqLike (s : Size) : SizeLike → Bool
  | .canonical t => s.width == t.width && s.height == t.height
  | .pair w h => s.width == w && s.height == h
  | .mappingFull w h => s.width == w && s.height == h
  | .mappingShort w h => s.width == w && s.height == h

/-- Modelled from the spec: the closed set of `RectLike` input shapes:
the exact type, an ordered quadruple, or a mapping with full field names. -/
inductive RectLike where
  | canonical (r : Rect)
  | quad (x y w h : ℚ)
  | mapping (x y w h : ℚ)
deriving DecidableEq

/-- Modelled from the spec: `Rect.from_like`, the single conversion from
any `RectLike` shape to a `Rect`. -/
def Rect.from_like : RectLike → Rect
  | .canonical r => r
  | .quad x y w h => ⟨x, y, w, h⟩
  | .mapping x y w h => ⟨x, y, w, h⟩

/-- Modelled from the spec: equality comparison of a `Rect` with any
`RectLike` shape (`Rect.__eq__`), comparing field by field. -/
def Rect.eqLike (r : Rect) : RectLike → Bool
  | .canonical s => r.x == s.x && r.y == s.y && r.width == s.width && r.height == s.height
  | .quad x y w h => r.x == x && r.y == y && r.width == w && r.height == h
  | .mapping x y w h => r.x == x && r.y == y && r.width == w && r.height == h

/-- Claim C8: for every rectangle and all deltas, inflating and then
deflating by the same deltas restores the original rectangle exactly. -/
theorem rect_inflate_deflate_inverse (r : Rect) (a b : ℚ) :
    (r.inflate a b).deflate a b = r := by
  cases r
  simp only [Rect.inflate, Rect.deflate, Rect.mk.injEq]
  refine ⟨by ring, by ring, by ring, by ring⟩

/-- Claim C9: inflate moves the position by (-dw, -dh) and grows the extent
by (2 dw, 2 dh); deflate moves the position by (dw, dh) and shrinks the
extent by (2 dw, 2 dh); both keep the center of the rectangle fixed. -/
theorem rect_inflate_deflate_formula (r : Rect) (dw dh : ℚ) :
    r.inflate dw dh = ⟨r.x - dw, r.y - dh, r.width + 2 * dw, r.height + 2 * dh⟩
      ∧ r.deflate dw dh = ⟨r.x + dw, r.y + dh, r.width - 2 * dw, r.height - 2 * dh⟩
      ∧ (r.inflate dw dh).center = r.center
      ∧ (r.deflate dw dh).center = r.center := by
  refine ⟨rfl, rfl, ?_, ?_⟩
  · simp only [Rect.inflate, Rect.center, Point.mk.injEq]
    exact ⟨by ring, by ring⟩
  · simp only [Rect.deflate, Rect.center, Point.mk.injEq]
    exact ⟨by ring, by ring⟩

/-- Claim C6: for each geometry type, the canonical, ordered-pair and
mapping forms (including abbreviated keys for `Size`) convert through the
single from-like function to one identical constructed value, and the
canonical value compares equal to every one of the forms. -/
theorem like_forms_agree (x y w h rx ry rw rh : ℚ) :
    (Point.from_like (.canonical ⟨x, y⟩) = (⟨x, y⟩ : Point)
        ∧ Point.from_like (.pair x y) = (⟨x, y⟩ : Point)
        ∧ Point.from_like (.mapping x y) = (⟨x, y⟩ : Point)
        ∧ (Point.mk x y).eqLike (.canonical ⟨x, y⟩) = true
        ∧ (Point.mk x y).eqLike (.pair x y) = true
        ∧ (Point.mk x y).eqLike (.mapping x y) = true)
      ∧ (Size.from_like (.canonical ⟨w, h⟩) = (⟨w, h⟩ : Size)
        ∧ Size.from_like (.pair w h) = (⟨w, h⟩ : Size)
        ∧ Size.from_like (.mappingFull w h) = (⟨w, h⟩ : Size)
        ∧ Size.from_like (.mappingShort w h) = (⟨w, h⟩ : Size)
        ∧ (Size.mk w h).eqLike (.canonical ⟨w, h⟩) = true
        ∧ (Size.mk w h).eqLike (.pair w h) = true
        ∧ (Size.mk w h).eqLike (.mappingFull w h) = true
        ∧ (Size.mk w h).eqLike (.mappingShort w h) = true)
      ∧ (Rect.from_like (.canonical ⟨rx, ry, rw, rh⟩) = (⟨rx, ry, rw, rh⟩ : Rect)
        ∧ Rect.from_like (.quad rx ry rw rh) = (⟨rx, ry, rw, rh⟩ : Rect)
        ∧ Rect.from_like (.mapping rx ry rw rh) = (⟨rx, ry, rw, rh⟩ : Rect)
        ∧ (Rect.mk rx ry rw rh).eqLike (.canonical ⟨rx, ry, rw, rh⟩) = true
        ∧ (Rect.mk rx ry rw rh).eqLike (.quad rx ry rw rh) = true
        ∧ (Rect.mk rx ry rw rh).eqLike (.mapping rx ry rw rh) = true) := by
  refine ⟨⟨rfl, rfl, rfl, ?_, ?_, ?_⟩, ⟨rfl, rfl, rfl, rfl, ?_, ?_, ?_, ?_⟩,
    ⟨rfl, rfl, rfl, ?_, ?_, ?_⟩⟩ <;>
    simp [Point.eqLike, Size.eqLike, Rect.eqLike]

/-- Claim C10: iterating/unpacking a geometry value yields its fields in
declaration order, equal to the values it was constructed with, and the
tuple form agrees. -/
theorem unpacking_field_order (x y w h rx ry rw rh : ℚ) :
    (Point.mk x y).to_tuple = (x, y)
      ∧ (Point.mk x y).toFields = [x, y]
      ∧ (Size.mk w h).to_tuple = (w, h)
      ∧ (Size.mk w h).toFields = [w, h]
      ∧ (Rect.mk rx ry rw rh).to_tuple = (rx, ry, rw, rh)
      ∧ (Rect.mk rx ry rw rh).toFields = [rx, ry, rw, rh] :=
  ⟨rfl, rfl, rfl, rfl, rfl, rfl⟩

/-- Modelled from the spec: the value carried by a node attribute:
primitive scalar or geometry value (the nested structured case is not
needed by any property proved here). -/
inductive UiValue where
  | boolVal (b : Bool)
  | numVal (q : ℚ)
  | strVal (s : String)
  | pointVal (p : Point)
  | sizeVal (s : Size)
  | rectVal (r : Rect)
deriving DecidableEq

/-- Modelled from the spec: the `UiAttribute` record, a namespaced, named,
typed key-value fact attached to a node; the field `ns` stands for the
attribute namespace. -/
structure UiAttribute where
  ns : String
  name : String
  value : UiValue
deriving DecidableEq

/-- Modelled from the spec: the `UiNode` tree exposed by the native
extension (absent from the Python sources): namespace, role, name, an
ordered attribute list and an ordered child list. -/
inductive UiNode where
  | node (ns role name : String) (attrList : List UiAttribute)
      (childList : List UiNode)

/-- Modelled from the spec: the namespace of a node. -/
def UiNode.nsOf : UiNode → String
  | .node n _ _ _ _ => n

/-- Modelled from the spec: `UiNode.role`. -/
def UiNode.role : UiNode → String
  | .node _ r _ _ _ => r

/-- Modelled from the spec: `UiNode.name`. -/
def UiNode.nameOf : UiNode → String
  | .node _ _ m _ _ => m

/-- Modelled from the spec: the ordered attribute list backing a node. -/
def UiNode.attrList : UiNode → List UiAttribute
  | .node _ _ _ a _ => a

/-- Modelled from the spec: the ordered child list backing a node. -/
def UiNode.childList : UiNode → List UiNode
  | .node _ _ _ _ c => c

mutual

/-- Modelled from the spec: all nodes of the subtree rooted at a node, in
document order (the node itself followed by its descendants). -/
def UiNode.selfAndDescendants : UiNode → List UiNode
  | .node n r m a c => .node n r m a c :: UiNode.forestNodes c

/-- Modelled from the spec: all nodes of a forest, in document order. -/
def UiNode.forestNodes : List UiNode → List UiNode
  | [] => []
  | t :: ts => t.selfAndDescendants ++ UiNode.forestNodes ts

end

/-- Modelled from the spec: the distinct, independently catchable error
kinds of the native extension that the proved properties touch. -/
inductive PlatynError where
  | attributeNotFound (qualified : String)
  | evaluationError (query : String)
  | pointerError
  | providerError
deriving DecidableEq

/-- Modelled from the spec: the human-readable message of an error; for
`attributeNotFound` it carries the fully qualified missing key. -/
def PlatynError.message : PlatynError → String
  | .attributeNotFound q => "attribute not found: " ++ q
  | .evaluationError q => "failed to parse query: " ++ q
  | .pointerError => "pointer device unavailable"
  | .providerError => "provider capability unavailable"

/-- Modelled from the spec: lookup of an attribute by namespace and name
in the ordered attribute list of a node; two attributes are distinct if
namespace or name differ. -/
def findAttr (attrs : List UiAttribute) (ns name : String) : Option UiAttribute :=
  attrs.find? fun a => a.ns == ns && a.name == name

/-- Modelled from the spec: `UiNode.attribute(name, namespace)`: value of
the concretely requested attribute, failing with `AttributeNotFoundError`
carrying the fully qualified `namespace:name` when the node lacks it. -/
def UiNode.attribute (n : UiNode) (name : String) (ns : String) :
    Except PlatynError UiValue :=
  match findAttr n.attrList ns name with
  | some a => .ok a.value
  | none => .error (.attributeNotFound (ns ++ ":" ++ name))

/-- Modelled from the spec: a single-pass, exhaustible, stateful cursor
over a finite sequence; the shape shared by `EvaluationIterator`,
`NodeChildrenIterator` and `NodeAttributesIterator` of the native
extension. -/
structure UiIterator (α : Type) where
  remaining : List α
deriving DecidableEq

/-- Modelled from the spec: one step of a cursor: yields the next element
and the advanced cursor, or nothing once exhausted (never an error). -/
def UiIterator.next {α : Type} (it : UiIterator α) : Option α × UiIterator α :=
  match it.remaining with
  | [] => (none, ⟨[]⟩)
  | a :: as => (some a, ⟨as⟩)

/-- Modelled from the spec: repeatedly stepping a cursor at most `fuel`
times, collecting the yielded elements, as draining an iterator does. -/
def drainFuel {α : Type} : Nat → UiIterator α → List α × UiIterator α
  | 0, it => ([], it)
  | fuel + 1, it =>
    match it.next with
    | (none, it2) => ([], it2)
    | (some a, it2) =>
      let r := drainFuel fuel it2
      (a :: r.1, r.2)

/-- Modelled from the spec: fully draining a cursor, as Python `list(it)`
does: step until the cursor reports exhaustion. -/
def UiIterator.drain {α : Type} (it : UiIterator α) : List α × UiIterator α :=
  drainFuel it.remaining.length it

/-- Modelled from the spec: `UiNode.children()`: a fresh single-pass
cursor over the child list of the node. -/
def UiNode.children (n : UiNode) : UiIterator UiNode :=
  ⟨n.childList⟩

/-- Modelled from the spec: `UiNode.attributes()`: a fresh single-pass
cursor over the attribute list of the node. -/
def UiNode.attributes (n : UiNode) : UiIterator UiAttribute :=
  ⟨n.attrList⟩

/-- Modelled from the spec: the provider description record plus the root
of the subtree the provider owns. -/
structure Provider where
  id : Nat
  display_name : String
  technology : String
  kind : String
  root : UiNode

/-- Modelled from the spec: the screenshot device capability: produce
encoded image bytes for a region and a MIME type. -/
structure ScreenshotDevice where
  capture : Rect → String → List Nat

/-- Modelled from the spec: the runtime facade state: the ordered
provider registry, the tracked pointer device position (absent when no
pointer device is registered) and the screenshot device, if any. -/
structure Runtime where
  providerList : List Provider
  pointerPos : Option Point
  screenshotDev : Option ScreenshotDevice

/-- Modelled from the spec: the attributes of the synthetic Desktop root. -/
def desktopAttrs : List UiAttribute :=
  [⟨"control", "Name", .strVal "Desktop"⟩,
   ⟨"control", "Bounds", .rectVal ⟨0, 0, 1920, 1080⟩⟩]

/-- Modelled from the spec: `Runtime.desktop_node()`: the synthetic
Desktop root whose children are the registered providers' native roots,
in registration order. -/
def Runtime.desktop_node (rt : Runtime) : UiNode :=
  .node "control" "Desktop" "Desktop" desktopAttrs
    (rt.providerList.map Provider.root)

/-- Modelled from the spec: the parsed form of the query-language subset
exercised here: the root path, the descendant wildcard, and a descendant
role step. -/
inductive Query where
  | root
  | descAny
  | descRole (role : String)
deriving DecidableEq

/-- Modelled from the spec: characters allowed in a role step of a query. -/
def isQueryIdentChar (c : Char) : Bool :=
  c.isAlphanum || c == '_'

/-- Modelled from the spec: parsing of the query surface: `/` is the root
path, `//*` the descendant wildcard, `//Role` a descendant role step;
anything else is a syntax error. -/
def parseQuery (q : String) : Option Query :=
  match q.toList with
  | ['/'] => some .root
  | '/' :: '/' :: rest =>
    if rest == ['*'] then some .descAny
    else if !rest.isEmpty && rest.all isQueryIdentChar then
      some (.descRole (String.mk rest))
    else none
  | _ => none

/-- Modelled from the spec: a query result item, a tagged union over
nodes and scalar/geometry values. -/
inductive QueryResult where
  | nodeItem (n : UiNode)
  | valueItem (v : UiValue)

/-- Modelled from the spec: whether a query result item is a `UiNode`. -/
def QueryResult.isNode : QueryResult → Bool
  | .nodeItem _ => true
  | .valueItem _ => false

/-- Modelled from the spec: evaluation of a parsed query against the
merged tree: `/` selects the Desktop root itself; `//*` every node of the
tree; `//Role` every node whose role equals the step, case-sensitively. -/
def Runtime.evalParsed (rt : Runtime) : Query → List QueryResult
  | .root => [.nodeItem rt.desktop_node]
  | .descAny => rt.desktop_node.selfAndDescendants.map .nodeItem
  | .descRole role =>
    (rt.desktop_node.selfAndDescendants.filter
      (fun t => t.role == role)).map .nodeItem

/-- Modelled from the spec: `Runtime.evaluate(query)`: the eager ordered
result sequence; malformed syntax fails with `EvaluationError`, zero
matches yield the empty sequence. -/
def Runtime.evaluate (rt : Runtime) (q : String) :
    Except PlatynError (List QueryResult) :=
  match parseQuery q with
  | some pq => .ok (rt.evalParsed pq)
  | none => .error (.evaluationError q)

/-- Modelled from the spec: `Runtime.evaluate_single(query)`: the first
result, or no result when the query matches nothing. -/
def Runtime.evaluate_single (rt : Runtime) (q : String) :
    Except PlatynError (Option QueryResult) :=
  match parseQuery q with
  | some pq => .ok (rt.evalParsed pq).head?
  | none => .error (.evaluationError q)

/-- Modelled from the spec: `Runtime.evaluate_iter(query)`: a fresh
single-pass cursor over the result sequence. -/
def Runtime.evaluate_iter (rt : Runtime) (q : String) :
    Except PlatynError (UiIterator QueryResult) :=
  match parseQuery q with
  | some pq => .ok ⟨rt.evalParsed pq⟩
  | none => .error (.evaluationError q)

/-- Modelled from the spec: the coordinate origin of a pointer override:
desktop-absolute, an absolute point, or relative to the top-left of a
rectangle. -/
inductive Origin where
  | desktop
  | absolutePoint (p : Point)
  | relativeToRect (r : Rect)
deriving DecidableEq

/-- Modelled from the spec: the `PointerOverrides` record resolved before
pointer dispatch. -/
structure PointerOverrides where
  speed_factor : ℚ
  origin : Origin
  after_move_delay_ms : Nat
  scroll_step : ℚ × ℚ
deriving DecidableEq

/-- Modelled from the spec: the process-wide default pointer overrides:
unit speed, desktop origin, no extra delay, unit scroll step. -/
def PointerOverrides.default : PointerOverrides :=
  ⟨1, .desktop, 0, (1, 1)⟩

/-- Modelled from the spec: override-resolution of a requested coordinate
before device dispatch: desktop origin leaves it unchanged, an absolute
point adds the given offset to the point, a rectangle adds the given
offset to the top-left of the rectangle. -/
def resolveOrigin (o : Origin) (given : Point) : Point :=
  match o with
  | .desktop => given
  | .absolutePoint p => p.add given
  | .relativeToRect r => r.position.add given

/-- Modelled from the spec: `Runtime.pointer_move_to(target, overrides)`:
fails when no pointer device is registered; otherwise resolves the target
through the overrides' origin, moves the tracked cursor there and returns
the post-move position with the updated runtime. -/
def Runtime.pointer_move_to (rt : Runtime) (target : Point)
    (ov : PointerOverrides) : Except PlatynError (Point × Runtime) :=
  match rt.pointerPos with
  | none => .error .pointerError
  | some _ =>
    let t := resolveOrigin ov.origin target
    .ok (t, ⟨rt.providerList, some t, rt.screenshotDev⟩)

/-- Modelled from the spec: the standard 8-byte PNG signature that every
PNG-encoded screenshot must begin with. -/
def pngSignature : List Nat :=
  [0x89, 0x50, 0x4E, 0x47, 0x0D, 0x0A, 0x1A, 0x0A]

/-- Modelled from the spec: the fixed deterministic PNG bytes produced by
the mock screenshot provider: the PNG signature followed by the start of
an IHDR chunk. -/
def mockPngBytes : List Nat :=
  pngSignature ++ [0, 0, 0, 13, 73, 72, 68, 82]

/-- Modelled from the spec: the mock screenshot device: trivially
deterministic, fixed-size encoded image for every region. -/
def mockScreenshotDevice : ScreenshotDevice :=
  ⟨fun _ _ => mockPngBytes⟩

/-- Modelled from the spec: `Runtime.screenshot(region, mime_type)`:
encoded image bytes from the registered screenshot device, failing with
`ProviderError` when the capability is unavailable. -/
def Runtime.screenshot (rt : Runtime) (region : Rect) (mime : String) :
    Except PlatynError (List Nat) :=
  match rt.screenshotDev with
  | some d => .ok (d.capture region mime)
  | none => .error .providerError

/-- Modelled from the spec: `Runtime.screenshot(region)` with the default
MIME type, which is PNG. -/
def Runtime.screenshotDefault (rt : Runtime) (region : Rect) :
    Except PlatynError (List Nat) :=
  rt.screenshot region "image/png"

/-- Modelled from the spec: the reserved constant id of the mock provider. -/
def MOCK_PROVIDER : Nat := 1000

/-- Modelled from the spec: the fixed, deterministic tree exposed by the
mock provider: a window with a button and a text field, including a node
with a true boolean focus-style attribute. -/
def mockTree : UiNode :=
  .node "control" "Window" "Main Window"
    [⟨"control", "Name", .strVal "Main Window"⟩,
     ⟨"control", "Bounds", .rectVal ⟨100, 100, 640, 480⟩⟩]
    [.node "control" "Button" "OK"
       [⟨"control", "Name", .strVal "OK"⟩,
        ⟨"control", "Bounds", .rectVal ⟨120, 160, 80, 30⟩⟩] [],
     .node "control" "Edit" "Input"
       [⟨"control", "Name", .strVal "Input"⟩,
        ⟨"control", "IsFocused", .boolVal true⟩] []]

/-- Modelled from the spec: the always-available mock provider record. -/
def mockProvider : Provider :=
  ⟨MOCK_PROVIDER, "Mock UI Provider", "Mock", "UiTree", mockTree⟩

/-- Modelled from the spec: `Runtime.new_with_mock()`: a runtime with the
mock provider and the mock platform devices registered. -/
def Runtime.new_with_mock : Runtime :=
  ⟨[mockProvider], some ⟨0, 0⟩, some mockScreenshotDevice⟩

/-- Over any finite cursor, stepping until exhaustion collects exactly the
remaining elements and leaves the exhausted cursor. -/
theorem drainFuel_spec {α : Type} (l : List α) :
    drainFuel l.length (⟨l⟩ : UiIterator α) = (l, ⟨[]⟩) := by
  induction l with
  | nil => rfl
  | cons a as ih =>
    simp only [List.length_cons, drainFuel, UiIterator.next, ih]

/-- Claim C1: for every constructed runtime, evaluating the query `/`
yields the sequence containing exactly one result item, the `UiNode` for
the synthetic Desktop root, whose role is the string `Desktop`. -/
theorem evaluate_root_single_desktop (rt : Runtime) :
    rt.evaluate "/" = .ok (rt.evalParsed .root)
      ∧ rt.evalParsed .root = [.nodeItem rt.desktop_node]
      ∧ (rt.evalParsed .root).countP QueryResult.isNode = 1
      ∧ rt.desktop_node.role = "Desktop" :=
  ⟨rfl, rfl, rfl, rfl⟩

/-- Claim C2: override-resolution of a pointer coordinate is by cases on
the origin: `Desktop` leaves the given coordinate unchanged,
`AbsolutePoint p` yields `p` plus the given offset, `RelativeToRect r`
yields the top-left of `r` plus the given offset; and with a registered
pointer device, `pointer_move_to` of `(100, 200)` under the default
desktop origin returns the position `(100, 200)`. -/
theorem pointer_origin_resolution :
    (∀ g : Point, resolveOrigin .desktop g = g)
      ∧ (∀ (p g : Point), resolveOrigin (.absolutePoint p) g = p.add g)
      ∧ (∀ (r : Rect) (g : Point),
          resolveOrigin (.relativeToRect r) g = (r.position).add g)
      ∧ (∀ (rt : Runtime) (p0 : Point), rt.pointerPos = some p0 →
          (rt.pointer_move_to ⟨100, 200⟩ PointerOverrides.default).map Prod.fst
            = .ok ⟨100, 200⟩) := by
  refine ⟨fun g => rfl, fun p g => rfl, fun r g => rfl, fun rt p0 h => ?_⟩
  simp [Runtime.pointer_move_to, h, resolveOrigin, PointerOverrides.default,
    Except.map]

/-- Witness for claim C2: on the runtime with the mock platform devices,
moving the pointer to `(100, 200)` under the default overrides returns
exactly that position. -/
theorem pointer_origin_resolution_witness :
    (Runtime.new_with_mock.pointer_move_to ⟨100, 200⟩
        PointerOverrides.default).map Prod.fst = .ok ⟨100, 200⟩ :=
  pointer_origin_resolution.2.2.2 Runtime.new_with_mock ⟨0, 0⟩ rfl

/-- Claim C3: every syntactically valid query that matches zero nodes
makes `evaluate` and `evaluate_iter` yield an empty sequence without an
error, and makes `evaluate_single` return the no-result value rather than
an error. -/
theorem zero_match_empty_not_error (rt : Runtime) (q : String) (pq : Query)
    (hp : parseQuery q = some pq) (hz : rt.evalParsed pq = []) :
    rt.evaluate q = .ok []
      ∧ rt.evaluate_iter q = .ok ⟨[]⟩
      ∧ rt.evaluate_single q = .ok none := by
  refine ⟨?_, ?_, ?_⟩ <;>
    simp [Runtime.evaluate, Runtime.evaluate_iter, Runtime.evaluate_single,
      hp, hz]

/-- Witness for claim C3: on the mock runtime, the query
`//NonExistentElement` parses, matches nothing, and yields the empty
sequence from `evaluate` and `evaluate_iter` and no result from
`evaluate_single`. -/
theorem zero_match_empty_not_error_witness :
    Runtime.new_with_mock.evaluate "//NonExistentElement" = .ok []
      ∧ Runtime.new_with_mock.evaluate_iter "//NonExistentElement" = .ok ⟨[]⟩
      ∧ Runtime.new_with_mock.evaluate_single "//NonExistentElement"
          = .ok none :=
  zero_match_empty_not_error Runtime.new_with_mock "//NonExistentElement"
    (.descRole "NonExistentElement") rfl rfl

/-- Claim C4: requesting a concrete attribute that a node does not carry
fails with `AttributeNotFoundError`, and the message of the error
contains the fully qualified key `namespace:name`. -/
theorem missing_attribute_not_found (n : UiNode) (name ns : String)
    (h : findAttr n.attrList ns name = none) :
    n.attribute name ns = .error (.attributeNotFound (ns ++ ":" ++ name))
      ∧ ∃ pre post,
          (PlatynError.attributeNotFound (ns ++ ":" ++ name)).message
            = pre ++ (ns ++ ":" ++ name) ++ post := by
  constructor
  · unfold UiNode.attribute
    rw [h]
  · exact ⟨"attribute not found: ", "", by rw [String.append_empty]; rfl⟩

/-- Witness for claim C4: on the Desktop root of the mock runtime,
requesting the absent attribute `DoesNotExist` in namespace `control`
fails with `AttributeNotFoundError` whose message contains
`control:DoesNotExist`. -/
theorem missing_attribute_not_found_witness :
    Runtime.new_with_mock.desktop_node.attribute "DoesNotExist" "control"
        = .error (.attributeNotFound ("control" ++ ":" ++ "DoesNotExist"))
      ∧ ∃ pre post,
          (PlatynError.attributeNotFound
              ("control" ++ ":" ++ "DoesNotExist")).message
            = pre ++ ("control" ++ ":" ++ "DoesNotExist") ++ post :=
  missing_attribute_not_found Runtime.new_with_mock.desktop_node
    "DoesNotExist" "control" rfl

/-- Claim C5: every cursor (result iterator, child iterator, attribute
iterator) is single-pass and exhaustible: draining it yields all its
elements and leaves the exhausted cursor, draining it again yields
nothing (and no error, since draining is total); and a freshly obtained
cursor over the same source always carries the full sequence again, so
it drains to the same count. -/
theorem iterators_single_pass :
    (∀ (α : Type) (it : UiIterator α),
        it.drain = (it.remaining, (⟨[]⟩ : UiIterator α))
          ∧ (it.drain.2).drain = ([], (⟨[]⟩ : UiIterator α)))
      ∧ (∀ n : UiNode,
          (n.children.drain.1 = n.childList
            ∧ n.attributes.drain.1 = n.attrList))
      ∧ (∀ (rt : Runtime) (q : String) (pq : Query), parseQuery q = some pq →
          rt.evaluate_iter q = .ok ⟨rt.evalParsed pq⟩) := by
  have hdrain : ∀ (α : Type) (it : UiIterator α),
      it.drain = (it.remaining, (⟨[]⟩ : UiIterator α)) := by
    intro α it
    cases it with
    | mk l => exact drainFuel_spec l
  refine ⟨fun α it => ⟨hdrain α it, ?_⟩, fun n => ?_, fun rt q pq hp => ?_⟩
  · rw [hdrain α it]
    exact hdrain α ⟨[]⟩
  · exact ⟨by rw [hdrain]; rfl, by rw [hdrain]; rfl⟩
  · simp [Runtime.evaluate_iter, hp]

/-- Witness for claim C5: on the mock runtime, the result cursor of the
query `/` is the cursor over the single Desktop result. -/
theorem iterators_single_pass_witness :
    Runtime.new_with_mock.evaluate_iter "/"
      = .ok ⟨Runtime.new_with_mock.evalParsed .root⟩ :=
  iterators_single_pass.2.2 Runtime.new_with_mock "/" .root rfl

/-- Claim C7: with the mock screenshot device registered, a screenshot of
any region requested as `image/png`, and equally under the default MIME
type, yields encoded bytes whose first 8 bytes are the standard PNG
signature. -/
theorem screenshot_png_signature (rt : Runtime)
    (h : rt.screenshotDev = some mockScreenshotDevice) (region : Rect) :
    (rt.screenshot region "image/png").map (List.take 8) = .ok pngSignature
      ∧ (rt.screenshotDefault region).map (List.take 8) = .ok pngSignature := by
  constructor <;>
    simp [Runtime.screenshot, Runtime.screenshotDefault, h,
      mockScreenshotDevice, mockPngBytes, pngSignature, Except.map]

/-- Witness for claim C7: on the mock runtime, the screenshot of the
region `Rect(0, 0, 10, 10)` begins with the 8-byte PNG signature, both
with explicit `image/png` and with the default MIME type. -/
theorem screenshot_png_signature_witness :
    (Runtime.new_with_mock.screenshot ⟨0, 0, 10, 10⟩ "image/png").map
        (List.take 8) = .ok pngSignature
      ∧ (Runtime.new_with_mock.screenshotDefault ⟨0, 0, 10, 10⟩).map
          (List.take 8) = .ok pngSignature :=
  screenshot_png_signature Runtime.new_with_mock rfl ⟨0, 0, 10, 10⟩

end PlatynUI
